import Mathlib

/-!
Verification development for the MercadoLibre Instagram ad generator
(`app.py`).  The definitions below are a shallow embedding of the
ad-composition pipeline: prompt composition (`generate_instagram_ad`,
lines 759-880), the orchestration of backend calls with the
config-then-bare retry and the one-shot model fallback (lines 892-1071),
response validation and image extraction (lines 979-1064), the text
overlay renderer (`add_text_overlay`, lines 309-434) with its title
word-wrap (lines 372-394), and the color palette builder
(`generate_color_palette`, lines 613-646).

Byte strings are modelled as `List Nat`, Python tuples/None returns as an
explicit sum (`PyResult`), exceptions as `Except`, and the external
Gemini backend / PIL as explicit oracle functions, so every definition is
executable.
-/

/-- Python `s[:n]` on a string: the first `n` code points. -/
def pyslice (s : String) (n : Nat) : String := ⟨s.data.take n⟩

/-- Does `pat` occur at the head of the character list? -/
def charsStartWith : List Char → List Char → Bool
  | [], _ => true
  | _ :: _, [] => false
  | p :: ps, c :: cs => p == c && charsStartWith ps cs

/-- Does `pat` occur anywhere in the character list? -/
def charsContain (pat : List Char) : List Char → Bool
  | [] => charsStartWith pat []
  | c :: rest => charsStartWith pat (c :: rest) || charsContain pat rest

/-- Substring test: does `pat` occur verbatim inside `s`? -/
def strContains (s pat : String) : Bool := charsContain pat.data s.data

/-- Model identifier for clean product images (app.py line 42). -/
def IMAGE_GENERATION_MODEL : String := "gemini-2.0-flash-preview-image-generation"

/-- Model identifier for text-to-image generation (app.py line 43). -/
def TEXT_TO_IMAGE_MODEL : String := "gemini-2.0-flash-preview-image-generation"

/-- Fallback model identifier (app.py line 46). -/
def FALLBACK_TEXT_TO_IMAGE_MODEL : String := "gemini-2.0-flash-preview-image-generation"

/-- The `product_data` dict fields used by the ad pipeline. -/
structure ProductData where
  title : String
  price : String
  description : String
deriving DecidableEq, Repr

/-- Sixteen spaces: the indentation each interior line of the
mode-1/mode-2 f-string prompt literals carries in the source. -/
def ind16 : String := "                "

/-- Twenty spaces: the indentation of the fallback-prompt literal. -/
def ind20 : String := "                    "

/-- CLEAN-mode prompt, tier with both description and style
(app.py lines 762-778).  Each prompt literal in the source starts with a
newline plus its indentation and ends with a newline plus its
indentation, which `.strip()` removes: the first and the last
non-whitespace characters always come from the fixed template text, so
the stripped string is written here directly. -/
def promptCleanFull (title desc style : String) : String :=
  "Professional studio photograph of " ++ title ++ ". \n" ++ ind16 ++ "\n" ++ ind16 ++
  "IMPORTANT: The product must match this exact description: " ++ pyslice desc 350 ++ "\n" ++ ind16 ++ "\n" ++ ind16 ++
  "Requirements:\n" ++ ind16 ++
  "- Same product as described above with identical visual characteristics\n" ++ ind16 ++
  "- " ++ style ++ "\n" ++ ind16 ++
  "- Product prominently featured and well-lit in center\n" ++ ind16 ++
  "- Professional studio lighting with soft shadows\n" ++ ind16 ++
  "- High quality product photography\n" ++ ind16 ++
  "- Square format (1:1 ratio)\n" ++ ind16 ++
  "- Instagram-ready composition\n" ++ ind16 ++
  "- No text or watermarks on the image\n" ++ ind16 ++
  "- Sophisticated and modern aesthetic\n" ++ ind16 ++
  "- Clean, professional look suitable for advertising"

/-- CLEAN-mode prompt, description-only tier (app.py lines 779-793). -/
def promptCleanDescOnly (title desc : String) : String :=
  "Professional studio photograph of " ++ title ++ ". \n" ++ ind16 ++ "\n" ++ ind16 ++
  "IMPORTANT: The product must match this exact description: " ++ pyslice desc 400 ++ "\n" ++ ind16 ++ "\n" ++ ind16 ++
  "Requirements:\n" ++ ind16 ++
  "- Same product as described above with identical visual characteristics\n" ++ ind16 ++
  "- Stylish gradient background with colors matching the product\n" ++ ind16 ++
  "- Product prominently featured and well-lit\n" ++ ind16 ++
  "- Professional studio lighting\n" ++ ind16 ++
  "- High quality product photography\n" ++ ind16 ++
  "- Square format (1:1 ratio)\n" ++ ind16 ++
  "- No text or watermarks"

/-- CLEAN-mode prompt, generic tier (app.py lines 794-801). -/
def promptCleanGeneric (title : String) : String :=
  "Professional studio photograph of " ++ title ++ ". \n" ++ ind16 ++
  "Modern gradient background with colors that complement the product.\n" ++ ind16 ++
  "Product prominently featured with professional lighting.\n" ++ ind16 ++
  "Square format. High quality. Instagram-ready composition.\n" ++ ind16 ++
  "No text on the image."

/-- CLEAN-mode prompt selection (app.py lines 759-801).  Python
truthiness of a string is emptiness, so `if a and b:` becomes
`a ≠ "" ∧ b ≠ ""`. -/
def promptClean (title desc style : String) : String :=
  if desc ≠ "" ∧ style ≠ "" then promptCleanFull title desc style
  else if desc ≠ "" then promptCleanDescOnly title desc
  else promptCleanGeneric title

/-- First TEXT_BAKED prompt assignment, description+style branch
(app.py lines 807-825).  This assignment is dead code: lines 842-880
unconditionally re-assign `generation_prompt` before it is used.
Transcribed for completeness. -/
def promptBakedShadowedFull (title price desc style : String) : String :=
  "Create a professional Instagram advertisement image (1080x1080) for " ++ title ++ ".\n" ++ ind16 ++ "\n" ++ ind16 ++
  "Product details: " ++ pyslice desc 300 ++ "\n" ++ ind16 ++
  "Price: " ++ price ++ "\n" ++ ind16 ++ "\n" ++ ind16 ++
  "Requirements:\n" ++ ind16 ++
  "- Show the exact product as described above\n" ++ ind16 ++
  "- " ++ style ++ "\n" ++ ind16 ++
  "- Include Spanish advertising text on the image\n" ++ ind16 ++
  "- Add the price: " ++ price ++ "\n" ++ ind16 ++
  "- Include an attractive Spanish call-to-action\n" ++ ind16 ++
  "- Use professional Instagram ad design\n" ++ ind16 ++
  "- Modern, eye-catching layout\n" ++ ind16 ++
  "- High quality and visually appealing\n" ++ ind16 ++
  "- Square format (1:1 ratio)\n" ++ ind16 ++
  "- All text must be in perfect Spanish"

/-- First TEXT_BAKED prompt assignment, generic branch
(app.py lines 826-841).  Dead code, see `promptBakedShadowedFull`. -/
def promptBakedShadowedGeneric (title price : String) : String :=
  "Create a professional Instagram advertisement image (1080x1080) for " ++ title ++ ".\n" ++ ind16 ++
  "Price: " ++ price ++ "\n" ++ ind16 ++ "\n" ++ ind16 ++
  "Requirements:\n" ++ ind16 ++
  "- Professional product photography with stylish background\n" ++ ind16 ++
  "- Include Spanish advertising text on the image\n" ++ ind16 ++
  "- Add the price: " ++ price ++ "\n" ++ ind16 ++
  "- Include an attractive Spanish call-to-action\n" ++ ind16 ++
  "- Use professional Instagram ad design\n" ++ ind16 ++
  "- Modern, eye-catching layout\n" ++ ind16 ++
  "- High quality and visually appealing\n" ++ ind16 ++
  "- Square format (1:1 ratio)\n" ++ ind16 ++
  "- All text must be in perfect Spanish"

/-- First TEXT_BAKED prompt assignment (app.py lines 807-841), selected
by `if combined_image_description and background_style:`.  Dead code:
immediately overwritten by the second assignment (lines 842-880). -/
def promptBakedShadowed (title price desc style : String) : String :=
  if desc ≠ "" ∧ style ≠ "" then promptBakedShadowedFull title price desc style
  else promptBakedShadowedGeneric title price

/-- Effective TEXT_BAKED prompt, description branch
(app.py lines 846-863).  Note the background style is interpolated
verbatim (possibly empty) rather than guarding the branch choice. -/
def promptBakedWithDesc (title price desc style : String) : String :=
  "Create a professional Instagram advertisement image (1080x1080) for " ++ title ++ ".\n" ++ ind16 ++ "\n" ++ ind16 ++
  "Product details: " ++ pyslice desc 250 ++ "\n" ++ ind16 ++
  "Price: " ++ price ++ "\n" ++ ind16 ++ "\n" ++ ind16 ++
  "Design Requirements:\n" ++ ind16 ++
  "- Show the exact product as described above\n" ++ ind16 ++
  "- Beautiful " ++ style ++ " behind the product\n" ++ ind16 ++
  "- Include Spanish advertising text on the image\n" ++ ind16 ++
  "- Add the price: " ++ price ++ "\n" ++ ind16 ++
  "- Include an attractive Spanish call-to-action\n" ++ ind16 ++
  "- Professional Instagram ad design with modern typography\n" ++ ind16 ++
  "- High quality and visually appealing\n" ++ ind16 ++
  "- Square format (1:1 ratio)\n" ++ ind16 ++
  "- All text must be in perfect Spanish\n" ++ ind16 ++
  "- Sophisticated color scheme that complements the product"

/-- Effective TEXT_BAKED prompt, description-absent branch
(app.py lines 864-880).  The style slot is interpolated here too. -/
def promptBakedNoDesc (title price style : String) : String :=
  "Create a professional Instagram advertisement image (1080x1080) for " ++ title ++ ".\n" ++ ind16 ++
  "Price: " ++ price ++ "\n" ++ ind16 ++ "\n" ++ ind16 ++
  "Design Requirements:\n" ++ ind16 ++
  "- Professional product photography\n" ++ ind16 ++
  "- Beautiful " ++ style ++ " behind the product\n" ++ ind16 ++
  "- Include Spanish advertising text on the image\n" ++ ind16 ++
  "- Add the price: " ++ price ++ "\n" ++ ind16 ++
  "- Include an attractive Spanish call-to-action\n" ++ ind16 ++
  "- Professional Instagram ad design with modern typography\n" ++ ind16 ++
  "- High quality and visually appealing\n" ++ ind16 ++
  "- Square format (1:1 ratio)\n" ++ ind16 ++
  "- All text must be in perfect Spanish\n" ++ ind16 ++
  "- Sophisticated and modern aesthetic"

/-- Effective TEXT_BAKED prompt (app.py lines 842-880): the second
assignment, branching only on `if combined_image_description:`. -/
def promptBaked (title price desc style : String) : String :=
  if desc ≠ "" then promptBakedWithDesc title price desc style
  else promptBakedNoDesc title price style

/-- Prompt rebuilt for the fallback model (app.py lines 947-962).  The
price is not an input; the conditional pieces mirror the two inline
Python conditional expressions. -/
def fallbackPrompt (title desc style : String) : String :=
  "Professional studio photograph of " ++ title ++ ".\n" ++ ind20 ++ "\n" ++ ind20 ++
  (if desc ≠ "" then "Product details: " ++ pyslice desc 300 else "") ++ "\n" ++ ind20 ++ "\n" ++ ind20 ++
  "Requirements:\n" ++ ind20 ++
  "- Show the exact product as described\n" ++ ind20 ++
  "- " ++ (if style ≠ "" then style else "Professional gradient background") ++ "\n" ++ ind20 ++
  "- Product prominently featured and well-lit\n" ++ ind20 ++
  "- Professional studio lighting with soft shadows\n" ++ ind20 ++
  "- High quality product photography\n" ++ ind20 ++
  "- Square format (1:1 ratio)\n" ++ ind20 ++
  "- Instagram-ready composition\n" ++ ind20 ++
  "- Clean, professional look suitable for advertising\n" ++ ind20 ++
  "- No text or watermarks on the image (text will be added separately)"

/-- Which code site issued a backend generation call.  The model
identifier strings happen to be configured identically (app.py lines
42-46), so the issuing site — not the string — distinguishes a fallback
invocation from a primary one. -/
inductive CallKind where
  | primaryConfigured
  | primaryBare
  | fallbackConfigured
deriving DecidableEq, Repr

/-- One `client.models.generate_content` invocation: issuing site, model
identifier, prompt, and whether a `GenerateContentConfig` was passed. -/
structure CallRecord where
  kind : CallKind
  model : String
  prompt : String
  withConfig : Bool
deriving DecidableEq, Repr

/-- The `inline_data.data` field of a response part as the extraction
loop (app.py lines 1018-1033) observes it: falsy data (`None` or empty),
a base64 string whose decode raises, or data that decodes to bytes. -/
inductive InlinePayload where
  | emptyData
  | decodeFails
  | bytes (bs : List Nat)
deriving DecidableEq, Repr

/-- One part of a candidate's content.  `text = ""` models a part with
no (or empty, hence falsy) text attribute. -/
structure ResponsePart where
  text : String
  inlineData : Option InlinePayload
deriving DecidableEq, Repr

/-- The `content` object of a candidate.  `parts = []` also stands for a
falsy `parts` attribute, which line 1004 treats identically. -/
structure CandidateContent where
  parts : List ResponsePart
deriving DecidableEq, Repr

/-- One response candidate. -/
structure ResponseCandidate where
  content : Option CandidateContent
deriving DecidableEq, Repr

/-- A backend response.  `candidates = []` also stands for a falsy
`candidates` attribute (line 985). -/
structure GenResponse where
  candidates : List ResponseCandidate
deriving DecidableEq, Repr

/-- The part-scanning loop (app.py lines 1011-1061): skip parts with
truthy text, skip parts without truthy inline data, skip parts whose
base64 decode raises, and stop at the first part that yields bytes. -/
def extractImage : List ResponsePart → Option (List Nat)
  | [] => none
  | p :: rest =>
    if p.text ≠ "" then extractImage rest
    else
      match p.inlineData with
      | none => extractImage rest
      | some InlinePayload.emptyData => extractImage rest
      | some InlinePayload.decodeFails => extractImage rest
      | some (InlinePayload.bytes bs) => some bs

/-- Return value of `generate_instagram_ad`: the early validation exits
(lines 983, 988, 994, 1002, 1007) return a bare Python `None`, while the
remaining paths return a `(image_or_None, used_fallback)` tuple. -/
inductive PyResult where
  | bareNone
  | pair (img : Option (List Nat)) (usedFallback : Bool)
deriving DecidableEq, Repr

/-- Response validation and image disposition (app.py lines 979-1064),
given the mode, the overlay renderer, the current `used_fallback` flag
and the backend response.  `if not response:` on line 981 can never fire
for an object actually returned by the client and is not modelled. -/
def processResponse (useTextOverlay : Bool) (overlayFn : List Nat → List Nat)
    (usedFallback : Bool) (resp : GenResponse) : PyResult :=
  match resp.candidates with
  | [] => PyResult.bareNone
  | cand :: _ =>
    match cand.content with
    | none => PyResult.bareNone
    | some content =>
      match content.parts with
      | [] => PyResult.bareNone
      | p1 :: restp =>
        match extractImage (p1 :: restp) with
        | none => PyResult.pair none usedFallback
        | some bs =>
          if useTextOverlay then PyResult.pair (some (overlayFn bs)) usedFallback
          else if !usedFallback then PyResult.pair (some bs) usedFallback
          else PyResult.pair (some (overlayFn bs)) usedFallback

/-- Outcome of one `generate_instagram_ad` run together with the record
of backend generation calls it issued, in order. -/
structure RunResult where
  result : PyResult
  calls : List CallRecord
deriving Repr

/-- The orchestration core of `generate_instagram_ad`
(app.py lines 892-1071).  `backend model prompt withConfig` models
`client.models.generate_content`; an `Except.error` models the call
raising.  `overlayFn` models `self.add_text_overlay` applied to the
decoded bytes (product data and ad concept are closed over).  CLEAN mode
(`use_text_overlay = True`, lines 902-923) tries the configured request
and retries bare on failure; a failure of the bare retry reaches the
outer handler (lines 1066-1071) which returns `(None, False)`.
TEXT_BAKED mode (lines 924-977) tries the configured request and on
failure issues exactly one configured fallback call with the rebuilt
prompt; a failure of that call reaches the same outer handler. -/
def generateInstagramAd (backend : String → String → Bool → Except String GenResponse)
    (overlayFn : List Nat → List Nat) (productData : ProductData)
    (combinedImageDescription backgroundStyle : String)
    (useTextOverlay : Bool) : RunResult :=
  if useTextOverlay then
    let selectedModel := IMAGE_GENERATION_MODEL
    let generationPrompt := promptClean productData.title combinedImageDescription backgroundStyle
    let c1 : CallRecord := ⟨CallKind.primaryConfigured, selectedModel, generationPrompt, true⟩
    match backend selectedModel generationPrompt true with
    | Except.ok resp => ⟨processResponse true overlayFn false resp, [c1]⟩
    | Except.error _ =>
      let c2 : CallRecord := ⟨CallKind.primaryBare, selectedModel, generationPrompt, false⟩
      match backend selectedModel generationPrompt false with
      | Except.ok resp => ⟨processResponse true overlayFn false resp, [c1, c2]⟩
      | Except.error _ => ⟨PyResult.pair none false, [c1, c2]⟩
  else
    let selectedModel := TEXT_TO_IMAGE_MODEL
    let generationPrompt := promptBaked productData.title productData.price
      combinedImageDescription backgroundStyle
    let c1 : CallRecord := ⟨CallKind.primaryConfigured, selectedModel, generationPrompt, true⟩
    match backend selectedModel generationPrompt true with
    | Except.ok resp => ⟨processResponse false overlayFn false resp, [c1]⟩
    | Except.error _ =>
      let fbPrompt := fallbackPrompt productData.title combinedImageDescription backgroundStyle
      let c2 : CallRecord := ⟨CallKind.fallbackConfigured, FALLBACK_TEXT_TO_IMAGE_MODEL, fbPrompt, true⟩
      match backend FALLBACK_TEXT_TO_IMAGE_MODEL fbPrompt true with
      | Except.ok resp => ⟨processResponse false overlayFn true resp, [c1, c2]⟩
      | Except.error _ => ⟨PyResult.pair none false, [c1, c2]⟩

/-- A decoded PIL image canvas, abstracted to an opaque pixel payload. -/
structure PILImage where
  pixels : List Nat
deriving DecidableEq, Repr

/-- A loaded font set; `trueType = false` is `ImageFont.load_default()`. -/
structure FontSet where
  trueType : Bool
deriving DecidableEq, Repr

/-- The default-font fallback used when truetype loading raises
(app.py lines 327-332). -/
def defaultFontSet : FontSet := ⟨false⟩

/-- Environment oracle for `add_text_overlay`: `decode` models
`Image.open` plus mode conversion (`none` = raises on a corrupt buffer),
`truetypeFonts` models the `ImageFont.truetype` block (`none` = raises),
`render` models the gradient/text drawing steps (`Except.error` =
raises), and `encodeJpeg img q` models `img.save(format JPEG,
quality=q)`. -/
structure OverlayOracle where
  decode : List Nat → Option PILImage
  truetypeFonts : Option FontSet
  render : PILImage → FontSet → ProductData → Except String PILImage
  encodeJpeg : PILImage → Nat → List Nat

/-- `add_text_overlay` (app.py lines 309-434): everything runs inside
one try/except that returns the original bytes on any raise; the font
try/except is interior and recovers with the default font; a successful
run re-encodes at JPEG quality 95 (line 426). -/
def addTextOverlay (o : OverlayOracle) (imageData : List Nat)
    (productData : ProductData) : List Nat :=
  match o.decode imageData with
  | none => imageData
  | some img =>
    let fonts := match o.truetypeFonts with
      | some f => f
      | none => defaultFontSet
    match o.render img fonts productData with
    | Except.error _ => imageData
    | Except.ok finalImg => o.encodeJpeg finalImg 95

/-- Title pre-truncation (app.py lines 336-337). -/
def truncateTitle (t : String) : String :=
  if t.length > 60 then pyslice t 57 ++ "..." else t

/-- The word-wrap loop of `add_text_overlay` (app.py lines 372-388).
`measure` models `draw.textbbox` width (`bbox[2] - bbox[0]`) for the
given font; `width` is the canvas width.  `f"{current_line} {word}"
.strip()` equals `word` when `current_line` is empty and
`current_line ++ " " ++ word` otherwise, since `title.split()` yields
whitespace-free words. -/
def wrapLoop (measure : String → Int) (width : Int) :
    List String → String → List String → List String
  | [], currentLine, lines =>
    if currentLine ≠ "" then lines ++ [currentLine] else lines
  | word :: rest, currentLine, lines =>
    let testLine := if currentLine = "" then word else currentLine ++ " " ++ word
    if measure testLine ≤ width - 40 then
      wrapLoop measure width rest testLine lines
    else
      if currentLine ≠ "" then
        wrapLoop measure width rest word (lines ++ [currentLine])
      else
        wrapLoop measure width rest word lines

/-- The full `lines` list built from the words of the title. -/
def wrapTitle (measure : String → Int) (width : Int) (words : List String) : List String :=
  wrapLoop measure width words "" []

/-- The lines actually drawn: `for line in lines[:2]` (app.py line 392). -/
def drawnTitleLines (measure : String → Int) (width : Int) (words : List String) : List String :=
  (wrapTitle measure width words).take 2

/-- An RGB triple with Python-int channels. -/
structure Rgb where
  r : Int
  g : Int
  b : Int
deriving DecidableEq, Repr

/-- The five-color palette of `generate_color_palette`, at the RGB level
(the source formats each triple back to a hex string with `rgb_to_hex`,
a bijection on channel values in [0,255]). -/
structure GeneratedPalette where
  primary : Rgb
  light : Rgb
  dark : Rgb
  complement : Rgb
  neutral : Rgb
deriving DecidableEq, Repr

/-- Value of one hexadecimal digit character, as `int(s, 16)` assigns. -/
def hexDigitVal (c : Char) : Nat :=
  if c.toNat ≥ 97 then c.toNat - 87
  else if c.toNat ≥ 65 then c.toNat - 55
  else c.toNat - 48

/-- `hex_to_rgb` (app.py lines 617-618): parse `#rrggbb`.  A malformed
string would raise in Python and land in the fallback palette; it is
mapped to black here and never reached by the claims. -/
def hexToRgb (s : String) : Rgb :=
  match s.data with
  | [_, r1, r2, g1, g2, b1, b2] =>
    ⟨(16 * hexDigitVal r1 + hexDigitVal r2 : Nat),
     (16 * hexDigitVal g1 + hexDigitVal g2 : Nat),
     (16 * hexDigitVal b1 + hexDigitVal b2 : Nat)⟩
  | _ => ⟨0, 0, 0⟩

/-- The palette computation of `generate_color_palette`
(app.py lines 628-634) on the parsed main color.  `neutral` is the
constant `#f8f9fa`, i.e. (248, 249, 250). -/
def paletteFromRgb (mainRgb : Rgb) : GeneratedPalette :=
  { primary := mainRgb
    light := ⟨min 255 (mainRgb.r + 60), min 255 (mainRgb.g + 60), min 255 (mainRgb.b + 60)⟩
    dark := ⟨max 0 (mainRgb.r - 40), max 0 (mainRgb.g - 40), max 0 (mainRgb.b - 40)⟩
    complement := ⟨255 - mainRgb.r, 255 - mainRgb.g, 255 - mainRgb.b⟩
    neutral := ⟨248, 249, 250⟩ }

/-- The fixed palette returned by the except branch
(app.py lines 638-646). -/
def fallbackColorPalette : GeneratedPalette :=
  { primary := hexToRgb "#4a90e2"
    light := hexToRgb "#87ceeb"
    dark := hexToRgb "#2c5aa0"
    complement := hexToRgb "#e24a4a"
    neutral := hexToRgb "#f8f9fa" }

/-- `generate_color_palette` (app.py lines 613-646): build the palette
from the first dominant color; `dominant_colors[0]` on an empty list
raises and the except branch returns the fixed fallback palette. -/
def generateColorPalette (dominantColors : List String) : GeneratedPalette :=
  match dominantColors with
  | [] => fallbackColorPalette
  | mainColor :: _ => paletteFromRgb (hexToRgb mainColor)

/-- A color channel lies in the byte range [0, 255]. -/
def channelInRange (x : Int) : Prop := 0 ≤ x ∧ x ≤ 255

theorem strData_append (a b : String) : (a ++ b).data = a.data ++ b.data := by
  cases a; cases b; rfl

theorem charsStartWith_append (pat rest : List Char) :
    charsStartWith pat (pat ++ rest) = true := by
  induction pat with
  | nil => rfl
  | cons c cs ih => simp [charsStartWith, ih]

theorem charsContain_here (pat rest : List Char) :
    charsContain pat (pat ++ rest) = true := by
  cases pat with
  | nil =>
    cases rest with
    | nil => rfl
    | cons c t => simp [charsContain, charsStartWith]
  | cons c cs =>
    have h := charsStartWith_append (c :: cs) rest
    simp only [List.cons_append] at h ⊢
    simp [charsContain, h]

theorem charsContain_cons (pat : List Char) (c : Char) (l : List Char)
    (h : charsContain pat l = true) : charsContain pat (c :: l) = true := by
  simp [charsContain, h]

theorem charsContain_append_right (pat pre l : List Char)
    (h : charsContain pat l = true) : charsContain pat (pre ++ l) = true := by
  induction pre with
  | nil => simpa using h
  | cons c cs ih => simpa using charsContain_cons pat c (cs ++ l) ih

/-- Every `(img, flag)` pair produced by `processResponse` carries
exactly the `used_fallback` flag that was in effect. -/
theorem processResponse_pair_flag (uto : Bool) (ov : List Nat → List Nat) (uf : Bool)
    (resp : GenResponse) (img : Option (List Nat)) (f : Bool)
    (h : processResponse uto ov uf resp = PyResult.pair img f) : f = uf := by
  obtain ⟨cands⟩ := resp
  cases cands with
  | nil => simp [processResponse] at h
  | cons cand restc =>
    obtain ⟨copt⟩ := cand
    cases copt with
    | none => simp [processResponse] at h
    | some content =>
      obtain ⟨parts⟩ := content
      cases parts with
      | nil => simp [processResponse] at h
      | cons p1 restp =>
        simp only [processResponse] at h
        cases hx : extractImage (p1 :: restp) with
        | none => rw [hx] at h; simp at h; exact h.2.symm
        | some bs =>
          rw [hx] at h
          cases uto with
          | true => simp at h; exact h.2.symm
          | false =>
            cases uf with
            | true => simp at h; exact h.2
            | false => simp at h; exact h.2

/-- Every line the word-wrap loop ever appends either fits the width
budget or is one of the input words taken unsplit. -/
theorem wrapLoop_mem (measure : String → Int) (width : Int) (S : List String) :
    ∀ (ws : List String) (cl : String) (lines : List String),
      (∀ w ∈ ws, w ∈ S) →
      (∀ l ∈ lines, measure l ≤ width - 40 ∨ l ∈ S) →
      (cl = "" ∨ measure cl ≤ width - 40 ∨ cl ∈ S) →
      ∀ l ∈ wrapLoop measure width ws cl lines, measure l ≤ width - 40 ∨ l ∈ S := by
  intro ws
  induction ws with
  | nil =>
    intro cl lines hws hlines hcl l hl
    simp only [wrapLoop] at hl
    by_cases hc : cl = ""
    · rw [if_neg (fun hne => hne hc)] at hl
      exact hlines l hl
    · rw [if_pos hc] at hl
      rcases List.mem_append.mp hl with hl' | hl'
      · exact hlines l hl'
      · have : l = cl := by simpa using hl'
        subst this
        rcases hcl with h0 | hcl'
        · exact absurd h0 hc
        · exact hcl'
  | cons w rest ih =>
    intro cl lines hws hlines hcl l hl
    simp only [wrapLoop] at hl
    by_cases hfit : measure (if cl = "" then w else cl ++ " " ++ w) ≤ width - 40
    · rw [if_pos hfit] at hl
      exact ih _ lines (fun x hx => hws x (List.mem_cons_of_mem _ hx)) hlines
        (Or.inr (Or.inl hfit)) l hl
    · rw [if_neg hfit] at hl
      by_cases hc : cl = ""
      · rw [if_neg (fun hne => hne hc)] at hl
        exact ih w lines (fun x hx => hws x (List.mem_cons_of_mem _ hx)) hlines
          (Or.inr (Or.inr (hws w (List.mem_cons_self _ _)))) l hl
      · rw [if_pos hc] at hl
        refine ih w (lines ++ [cl]) (fun x hx => hws x (List.mem_cons_of_mem _ hx)) ?_
          (Or.inr (Or.inr (hws w (List.mem_cons_self _ _)))) l hl
        intro x hx
        rcases List.mem_append.mp hx with hx' | hx'
        · exact hlines x hx'
        · have : x = cl := by simpa using hx'
          subst this
          rcases hcl with h0 | hcl'
          · exact absurd h0 hc
          · exact hcl'

set_option maxRecDepth 100000 in
/-- C1: in TEXT_BAKED mode (`use_text_overlay = False`), when the
primary configured call raises, the run issues exactly the primary call
followed by one fallback call — to the fallback model identifier with
the rebuilt `fallbackPrompt`, which takes no price input — and every
successful outcome of such a run carries `usedFallback = true`; the
rebuilt prompt contains no advertising-text, price, or call-to-action
instruction (checked verbatim on a representative input). -/
theorem c1_textbaked_primary_failure_one_fallback :
    ∀ (backend : String → String → Bool → Except String GenResponse)
      (ov : List Nat → List Nat) (p : ProductData) (d s e : String),
      backend TEXT_TO_IMAGE_MODEL (promptBaked p.title p.price d s) true = Except.error e →
      ((generateInstagramAd backend ov p d s false).calls =
        [⟨CallKind.primaryConfigured, TEXT_TO_IMAGE_MODEL, promptBaked p.title p.price d s, true⟩,
         ⟨CallKind.fallbackConfigured, FALLBACK_TEXT_TO_IMAGE_MODEL, fallbackPrompt p.title d s, true⟩]) ∧
      (∀ img uf, (generateInstagramAd backend ov p d s false).result = PyResult.pair (some img) uf →
        uf = true) ∧
      strContains (fallbackPrompt "Silla de Oficina Ergonomica" "una silla ergonomica de oficina"
        "elegant backdrop with gradient") "Add the price" = false ∧
      strContains (fallbackPrompt "Silla de Oficina Ergonomica" "una silla ergonomica de oficina"
        "elegant backdrop with gradient") "call-to-action" = false ∧
      strContains (fallbackPrompt "Silla de Oficina Ergonomica" "una silla ergonomica de oficina"
        "elegant backdrop with gradient") "Include Spanish advertising text" = false := by
  intro backend ov p d s e h
  cases hfb : backend FALLBACK_TEXT_TO_IMAGE_MODEL (fallbackPrompt p.title d s) true with
  | ok r =>
    refine ⟨?_, ?_, rfl, rfl, rfl⟩
    · simp [generateInstagramAd, h, hfb]
    · intro img uf h'
      simp only [generateInstagramAd, Bool.false_eq_true, if_false, h, hfb] at h'
      exact processResponse_pair_flag _ _ _ _ _ _ h'
  | error e2 =>
    refine ⟨?_, ?_, rfl, rfl, rfl⟩
    · simp [generateInstagramAd, h, hfb]
    · intro img uf h'
      simp [generateInstagramAd, h, hfb] at h'

/-- Witness for C1: with a backend that rejects every request, the
TEXT_BAKED run issues a configured primary call and then exactly one
fallback call. -/
theorem c1_textbaked_primary_failure_one_fallback_instance :
    (generateInstagramAd (fun _ _ _ => Except.error "model not found") id
      ⟨"Silla de Oficina", "45.999", "una silla comoda"⟩ "" "" false).calls.map CallRecord.kind =
    [CallKind.primaryConfigured, CallKind.fallbackConfigured] := by
  have h := (c1_textbaked_primary_failure_one_fallback
    (fun _ _ _ => Except.error "model not found") id
    ⟨"Silla de Oficina", "45.999", "una silla comoda"⟩ "" "" "model not found" rfl).1
  rw [h]
  rfl

/-- C2: in CLEAN mode (`use_text_overlay = True`), no run ever issues a
fallback call, every `(img, flag)` outcome carries `usedFallback =
false`, and when both the configured request and the bare retry raise,
the run's outcome is the failure pair `(None, False)`. -/
theorem c2_clean_mode_no_fallback :
    ∀ (backend : String → String → Bool → Except String GenResponse)
      (ov : List Nat → List Nat) (p : ProductData) (d s : String),
      (∀ c ∈ (generateInstagramAd backend ov p d s true).calls,
        c.kind ≠ CallKind.fallbackConfigured) ∧
      (∀ img uf, (generateInstagramAd backend ov p d s true).result = PyResult.pair img uf →
        uf = false) ∧
      (∀ e1 e2, backend IMAGE_GENERATION_MODEL (promptClean p.title d s) true = Except.error e1 →
        backend IMAGE_GENERATION_MODEL (promptClean p.title d s) false = Except.error e2 →
        (generateInstagramAd backend ov p d s true).result = PyResult.pair none false) := by
  intro backend ov p d s
  cases h1 : backend IMAGE_GENERATION_MODEL (promptClean p.title d s) true with
  | ok r =>
    refine ⟨?_, ?_, ?_⟩
    · intro c hc
      simp [generateInstagramAd, h1] at hc
      subst hc
      simp
    · intro img uf h'
      simp only [generateInstagramAd, Bool.true_eq_false, if_true, h1] at h'
      exact processResponse_pair_flag _ _ _ _ _ _ h'
    · intro e1 e2 hh1 hh2
      cases hh1
  | error e =>
    cases h2 : backend IMAGE_GENERATION_MODEL (promptClean p.title d s) false with
    | ok r =>
      refine ⟨?_, ?_, ?_⟩
      · intro c hc
        simp [generateInstagramAd, h1, h2] at hc
        rcases hc with hc | hc <;> (subst hc; simp)
      · intro img uf h'
        simp only [generateInstagramAd, Bool.true_eq_false, if_true, h1, h2] at h'
        exact processResponse_pair_flag _ _ _ _ _ _ h'
      · intro e1 e2 hh1 hh2
        cases hh2
    | error e2 =>
      refine ⟨?_, ?_, ?_⟩
      · intro c hc
        simp [generateInstagramAd, h1, h2] at hc
        rcases hc with hc | hc <;> (subst hc; simp)
      · intro img uf h'
        simp [generateInstagramAd, h1, h2] at h'
        exact h'.2
      · intro e1' e2' hh1 hh2
        simp [generateInstagramAd, h1, h2]

/-- Witness for C2: a backend that rejects both CLEAN-mode attempts
yields the terminal failure pair `(None, False)`. -/
theorem c2_clean_mode_no_fallback_instance :
    (generateInstagramAd (fun _ _ _ => Except.error "config rejected twice") id
      ⟨"Silla de Oficina", "45.999", "una silla comoda"⟩ "" "" true).result =
    PyResult.pair none false :=
  (c2_clean_mode_no_fallback (fun _ _ _ => Except.error "config rejected twice") id
    ⟨"Silla de Oficina", "45.999", "una silla comoda"⟩ "" "").2.2
    "config rejected twice" "config rejected twice" rfl rfl

set_option maxRecDepth 100000 in
/-- Counterexample to C3: with a backend that rejects every request, a
TEXT_BAKED run issues only two calls, both configured — the rejected
configured primary call is never retried bare (same model, same prompt)
and the rejected configured fallback call is never retried bare either;
the run simply ends in the failure pair. -/
theorem c3_no_bare_retry_counterexample :
    ((generateInstagramAd (fun _ _ _ => Except.error "config rejected") id
        ⟨"Silla de Oficina", "45.999", "una silla comoda"⟩ "" "" false).calls.map
          CallRecord.withConfig = [true, true]) ∧
    ((generateInstagramAd (fun _ _ _ => Except.error "config rejected") id
        ⟨"Silla de Oficina", "45.999", "una silla comoda"⟩ "" "" false).calls.map
          CallRecord.kind = [CallKind.primaryConfigured, CallKind.fallbackConfigured]) ∧
    ((generateInstagramAd (fun _ _ _ => Except.error "config rejected") id
        ⟨"Silla de Oficina", "45.999", "una silla comoda"⟩ "" "" false).result =
      PyResult.pair none false) := by
  refine ⟨rfl, rfl, rfl⟩

/-- C3 amended: only the CLEAN-mode primary call follows the
config-then-bare pattern (bare retry with the same model and prompt);
the TEXT_BAKED primary call and the fallback call are each attempted
exactly once, with configuration — a rejected configured TEXT_BAKED
primary call transitions directly to the fallback, and a rejected
configured fallback call is terminal.  The call list of a run is
characterized completely for both modes. -/
theorem c3_retry_pattern_amended :
    ∀ (backend : String → String → Bool → Except String GenResponse)
      (ov : List Nat → List Nat) (p : ProductData) (d s : String),
      ((generateInstagramAd backend ov p d s true).calls =
        match backend IMAGE_GENERATION_MODEL (promptClean p.title d s) true with
        | Except.ok _ =>
          [⟨CallKind.primaryConfigured, IMAGE_GENERATION_MODEL, promptClean p.title d s, true⟩]
        | Except.error _ =>
          [⟨CallKind.primaryConfigured, IMAGE_GENERATION_MODEL, promptClean p.title d s, true⟩,
           ⟨CallKind.primaryBare, IMAGE_GENERATION_MODEL, promptClean p.title d s, false⟩]) ∧
      ((generateInstagramAd backend ov p d s false).calls =
        match backend TEXT_TO_IMAGE_MODEL (promptBaked p.title p.price d s) true with
        | Except.ok _ =>
          [⟨CallKind.primaryConfigured, TEXT_TO_IMAGE_MODEL, promptBaked p.title p.price d s, true⟩]
        | Except.error _ =>
          [⟨CallKind.primaryConfigured, TEXT_TO_IMAGE_MODEL, promptBaked p.title p.price d s, true⟩,
           ⟨CallKind.fallbackConfigured, FALLBACK_TEXT_TO_IMAGE_MODEL,
             fallbackPrompt p.title d s, true⟩]) := by
  intro backend ov p d s
  constructor
  · cases h1 : backend IMAGE_GENERATION_MODEL (promptClean p.title d s) true with
    | ok r => simp [generateInstagramAd, h1]
    | error e =>
      cases h2 : backend IMAGE_GENERATION_MODEL (promptClean p.title d s) false with
      | ok r => simp [generateInstagramAd, h1, h2]
      | error e2 => simp [generateInstagramAd, h1, h2]
  · cases h1 : backend TEXT_TO_IMAGE_MODEL (promptBaked p.title p.price d s) true with
    | ok r => simp [generateInstagramAd, h1]
    | error e =>
      cases h2 : backend FALLBACK_TEXT_TO_IMAGE_MODEL (fallbackPrompt p.title d s) true with
      | ok r => simp [generateInstagramAd, h1, h2]
      | error e2 => simp [generateInstagramAd, h1, h2]

set_option maxRecDepth 100000 in
/-- Counterexample to C4: for a product priced "45.999", the CLEAN-mode
prompt omits the price string in all three of its tiers — the price is
not an input of CLEAN-mode prompt composition at all. -/
theorem c4_clean_prompt_omits_price_counterexample :
    strContains (promptClean "Silla de Oficina" "una silla comoda" "elegant backdrop")
      "45.999" = false ∧
    strContains (promptClean "Silla de Oficina" "una silla comoda" "") "45.999" = false ∧
    strContains (promptClean "Silla de Oficina" "" "") "45.999" = false := by
  refine ⟨rfl, rfl, rfl⟩

/-- C4 amended: only the TEXT_BAKED prompt always embeds the literal
price string verbatim (in both of its branches); the CLEAN-mode prompt
is composed without the price. -/
theorem c4_baked_prompt_contains_price_amended :
    ∀ (t p d s : String), strContains (promptBaked t p d s) p = true := by
  intro t p d s
  by_cases hd : d = "" <;>
    simp only [promptBaked, hd, promptBakedWithDesc, promptBakedNoDesc, if_true, if_false,
      ne_eq, not_true_eq_false, not_false_eq_true, ite_true, ite_false, strContains,
      strData_append, List.append_assoc] <;>
    (repeat first
      | exact charsContain_here _ _
      | apply charsContain_append_right)

set_option maxRecDepth 100000 in
/-- Counterexample to C5: in TEXT_BAKED mode the description-absent
tier is not a single generic prompt — with the image description absent,
the composed prompt still changes with the background style, because the
style string is interpolated verbatim into both TEXT_BAKED templates and
the branch choice depends only on the description. -/
theorem c5_baked_generic_tier_counterexample :
    promptBaked "Silla de Oficina" "45.999" "" "elegant backdrop" ≠
      promptBaked "Silla de Oficina" "45.999" "" "" := by
  decide

/-- C5 amended: CLEAN mode degrades through the three claimed tiers —
in particular its description-absent tier is one generic prompt,
independent of the style — while TEXT_BAKED mode selects between only
two templates based solely on description availability and interpolates
the (possibly empty) background style into both, so even its
description-absent prompt embeds the style verbatim. -/
theorem c5_tier_structure_amended :
    (∀ (t s1 s2 : String), promptClean t "" s1 = promptClean t "" s2) ∧
    (∀ (t p s : String), strContains (promptBaked t p "" s) s = true) := by
  constructor
  · intro t s1 s2
    simp [promptClean]
  · intro t p s
    simp only [promptBaked, promptBakedNoDesc, ne_eq, not_true_eq_false, if_false,
      ite_false, strContains, strData_append, List.append_assoc]
    repeat first
      | exact charsContain_here _ _
      | apply charsContain_append_right

/-- Counterexample to C6: a backend response with one candidate whose
content has an empty parts sequence makes the run return the bare
Python `None` (line 1007), not the `(None, usedFallback)` pair the
claim requires. -/
theorem c6_empty_parts_bare_none_counterexample :
    ((generateInstagramAd (fun _ _ _ => Except.ok ⟨[⟨some ⟨[]⟩⟩]⟩) id
        ⟨"Silla de Oficina", "45.999", "una silla comoda"⟩ "" "" true).result =
      PyResult.bareNone) ∧
    ((generateInstagramAd (fun _ _ _ => Except.ok ⟨[⟨some ⟨[]⟩⟩]⟩) id
        ⟨"Silla de Oficina", "45.999", "una silla comoda"⟩ "" "" true).result ≠
      PyResult.pair none false) := by
  refine ⟨rfl, by decide⟩

/-- C6 amended: for a response whose first candidate has content, an
empty parts sequence yields the bare `None` early exit, while a
non-empty parts sequence in which no part yields inline binary data
yields the `(None, usedFallback)` pair with the current flag. -/
theorem c6_noimage_shapes_amended :
    ∀ (uto : Bool) (ov : List Nat → List Nat) (uf : Bool) (resp : GenResponse)
      (cand : ResponseCandidate) (restc : List ResponseCandidate) (content : CandidateContent),
      resp.candidates = cand :: restc → cand.content = some content →
      ((content.parts = [] → processResponse uto ov uf resp = PyResult.bareNone) ∧
       (extractImage content.parts = none → content.parts ≠ [] →
         processResponse uto ov uf resp = PyResult.pair none uf)) := by
  intro uto ov uf resp cand restc content h1 h2
  obtain ⟨cands⟩ := resp
  simp only at h1
  subst h1
  obtain ⟨copt⟩ := cand
  simp only at h2
  subst h2
  constructor
  · intro hp
    simp [processResponse, hp]
  · intro hx hne
    obtain ⟨parts⟩ := content
    cases parts with
    | nil => exact absurd rfl hne
    | cons p1 restp =>
      simp only [processResponse]
      simp only at hx
      rw [hx]

/-- Witness for C6 amended: the empty-parts response produces the bare
`None` value. -/
theorem c6_noimage_shapes_amended_instance :
    processResponse true id false ⟨[⟨some ⟨[]⟩⟩]⟩ = PyResult.bareNone :=
  (c6_noimage_shapes_amended true id false ⟨[⟨some ⟨[]⟩⟩]⟩ ⟨some ⟨[]⟩⟩ [] ⟨[]⟩ rfl rfl).1 rfl

/-- Counterexample to C7: when only the truetype font loading fails, the
renderer does not return the original bytes — it recovers with the
default font and still returns freshly encoded output. -/
theorem c7_font_failure_counterexample :
    (OverlayOracle.truetypeFonts
        ⟨fun _ => some ⟨[0]⟩, none, fun img _ _ => Except.ok img, fun _ _ => [1, 2, 3]⟩ = none) ∧
    addTextOverlay ⟨fun _ => some ⟨[0]⟩, none, fun img _ _ => Except.ok img, fun _ _ => [1, 2, 3]⟩
      [9] ⟨"Silla", "45.999", "una silla"⟩ ≠ [9] := by
  exact ⟨rfl, by decide⟩

/-- C7 amended: the renderer is total (never raises): it returns the
original input bytes when decoding fails, and likewise when decoding
succeeds but the drawing/compositing step (run with the loaded or
default fonts) raises; when decoding and drawing both succeed it
returns the JPEG encoding of the composited canvas at quality 95 ≥ 90;
font-loading failure alone does not abort the render — it is recovered
internally with the default font. -/
theorem c7_overlay_contract_amended :
    ∀ (o : OverlayOracle) (data : List Nat) (pd : ProductData),
      (o.decode data = none → addTextOverlay o data pd = data) ∧
      (∀ img e, o.decode data = some img →
        o.render img (match o.truetypeFonts with | some f => f | none => defaultFontSet) pd =
          Except.error e →
        addTextOverlay o data pd = data) ∧
      (∀ img fin, o.decode data = some img →
        o.render img (match o.truetypeFonts with | some f => f | none => defaultFontSet) pd =
          Except.ok fin →
        addTextOverlay o data pd = o.encodeJpeg fin 95) ∧
      (addTextOverlay o data pd = data ∨
        ∃ img : PILImage, addTextOverlay o data pd = o.encodeJpeg img 95) ∧
      95 ≥ 90 := by
  intro o data pd
  refine ⟨?_, ?_, ?_, ?_, by decide⟩
  · intro hd
    simp [addTextOverlay, hd]
  · intro img e hd hr
    cases hf : o.truetypeFonts with
    | none =>
      simp only [hf] at hr
      simp [addTextOverlay, hd, hf, hr]
    | some f =>
      simp only [hf] at hr
      simp [addTextOverlay, hd, hf, hr]
  · intro img fin hd hr
    cases hf : o.truetypeFonts with
    | none =>
      simp only [hf] at hr
      simp [addTextOverlay, hd, hf, hr]
    | some f =>
      simp only [hf] at hr
      simp [addTextOverlay, hd, hf, hr]
  · cases hd : o.decode data with
    | none => left; simp [addTextOverlay, hd]
    | some img =>
      cases hf : o.truetypeFonts with
      | none =>
        cases hr : o.render img defaultFontSet pd with
        | error err => left; simp [addTextOverlay, hd, hf, hr]
        | ok fin => right; exact ⟨fin, by simp [addTextOverlay, hd, hf, hr]⟩
      | some f =>
        cases hr : o.render img f pd with
        | error err => left; simp [addTextOverlay, hd, hf, hr]
        | ok fin => right; exact ⟨fin, by simp [addTextOverlay, hd, hf, hr]⟩

/-- Witness for C7 amended: when the buffer decodes but the drawing
step raises, the original bytes come back unchanged. -/
theorem c7_overlay_contract_amended_instance :
    addTextOverlay
      ⟨fun _ => some ⟨[5]⟩, some ⟨true⟩, fun _ _ _ => Except.error "draw failed", fun _ _ => [1]⟩
      [7] ⟨"Silla", "45.999", "una silla"⟩ = [7] :=
  (c7_overlay_contract_amended
    ⟨fun _ => some ⟨[5]⟩, some ⟨true⟩, fun _ _ _ => Except.error "draw failed", fun _ _ => [1]⟩
    [7] ⟨"Silla", "45.999", "una silla"⟩).2.1 ⟨[5]⟩ "draw failed" rfl rfl

/-- Counterexample to C8: a single word wider than the canvas budget is
emitted unsplit as a drawn line whose rendered width exceeds the canvas
width minus the 40-pixel margin (width 100, measure 10 px per
character: the word measures 100 > 60). -/
theorem c8_overwide_word_counterexample :
    drawnTitleLines (fun s => 10 * (s.length : Int)) 100 ["abcdefghij"] = ["abcdefghij"] ∧
    ¬ (10 * (("abcdefghij" : String).length : Int) ≤ 100 - 40) := by
  exact ⟨rfl, by decide⟩

/-- C8 amended: at most 2 title lines are drawn, and every line the
word-wrap emits either fits within the canvas width minus the 40-pixel
margin or is a single input word whose own rendered width already
exceeds that budget (over-wide words are never split). -/
theorem c8_wrap_bound_amended :
    ∀ (measure : String → Int) (width : Int) (words : List String),
      (drawnTitleLines measure width words).length ≤ 2 ∧
      ∀ l ∈ wrapTitle measure width words, measure l ≤ width - 40 ∨ l ∈ words := by
  intro measure width words
  constructor
  · exact List.length_take_le 2 _
  · intro l hl
    exact wrapLoop_mem measure width words words "" [] (fun w hw => hw) (by simp)
      (Or.inl rfl) l hl

/-- Witness for C8 amended: on a concrete wrap the emitted line
"ab cd" satisfies the width bound. -/
theorem c8_wrap_bound_amended_instance :
    (fun s => 10 * (s.length : Int)) "ab cd" ≤ 100 - 40 ∨
      ("ab cd" : String) ∈ ["ab", "cd", "efg", "hi"] :=
  (c8_wrap_bound_amended (fun s => 10 * (s.length : Int)) 100 ["ab", "cd", "efg", "hi"]).2
    "ab cd" (by decide)

/-- C9: for a dominant color with all channels in [0, 255], the palette
satisfies the channel laws: `complement` is the channel-wise inversion
255 − c, `light` is min(255, c + 60) and `dark` is max(0, c − 40) per
channel — hence `light` and `dark` channels stay in [0, 255] — and
`neutral` is the fixed constant (248, 249, 250). -/
theorem c9_palette_channel_laws :
    ∀ (c : Rgb), channelInRange c.r → channelInRange c.g → channelInRange c.b →
      (paletteFromRgb c).complement = ⟨255 - c.r, 255 - c.g, 255 - c.b⟩ ∧
      (paletteFromRgb c).light = ⟨min 255 (c.r + 60), min 255 (c.g + 60), min 255 (c.b + 60)⟩ ∧
      (paletteFromRgb c).dark = ⟨max 0 (c.r - 40), max 0 (c.g - 40), max 0 (c.b - 40)⟩ ∧
      channelInRange (paletteFromRgb c).light.r ∧ channelInRange (paletteFromRgb c).light.g ∧
      channelInRange (paletteFromRgb c).light.b ∧ channelInRange (paletteFromRgb c).dark.r ∧
      channelInRange (paletteFromRgb c).dark.g ∧ channelInRange (paletteFromRgb c).dark.b ∧
      (paletteFromRgb c).neutral = ⟨248, 249, 250⟩ := by
  intro c h1 h2 h3
  obtain ⟨h1a, h1b⟩ := h1
  obtain ⟨h2a, h2b⟩ := h2
  obtain ⟨h3a, h3b⟩ := h3
  refine ⟨rfl, rfl, rfl, ?_, ?_, ?_, ?_, ?_, ?_, rfl⟩ <;>
    (simp only [paletteFromRgb, channelInRange]; omega)

/-- Witness for C9: the boundary color (10, 0, 255) yields in-range
light and dark channels. -/
theorem c9_palette_channel_laws_instance :
    channelInRange (paletteFromRgb ⟨10, 0, 255⟩).light.r ∧
    channelInRange (paletteFromRgb ⟨10, 0, 255⟩).dark.b := by
  obtain ⟨-, -, -, h4, -, -, -, -, h9, -⟩ :=
    c9_palette_channel_laws ⟨10, 0, 255⟩ ⟨by decide, by decide⟩ ⟨by decide, by decide⟩
      ⟨by decide, by decide⟩
  exact ⟨h4, h9⟩

/-- C10: in TEXT_BAKED mode, when the primary call raises and the
fallback call also raises, the run returns the pair `(None, False)` —
the outer handler discards the `used_fallback = True` already set, so
the failed-after-fallback run is indistinguishable from one that never
invoked the fallback. -/
theorem c10_double_failure_returns_none_false :
    ∀ (backend : String → String → Bool → Except String GenResponse)
      (ov : List Nat → List Nat) (p : ProductData) (d s e1 e2 : String),
      backend TEXT_TO_IMAGE_MODEL (promptBaked p.title p.price d s) true = Except.error e1 →
      backend FALLBACK_TEXT_TO_IMAGE_MODEL (fallbackPrompt p.title d s) true = Except.error e2 →
      (generateInstagramAd backend ov p d s false).result = PyResult.pair none false := by
  intro backend ov p d s e1 e2 h1 h2
  simp [generateInstagramAd, h1, h2]

/-- Witness for C10: a backend that rejects everything makes the
TEXT_BAKED run end in `(None, False)`. -/
theorem c10_double_failure_returns_none_false_instance :
    (generateInstagramAd (fun _ _ _ => Except.error "model overloaded") id
      ⟨"Silla de Oficina", "45.999", "una silla comoda"⟩ "" "" false).result =
    PyResult.pair none false :=
  c10_double_failure_returns_none_false (fun _ _ _ => Except.error "model overloaded") id
    ⟨"Silla de Oficina", "45.999", "una silla comoda"⟩ "" "" "model overloaded"
    "model overloaded" rfl rfl
